import Mathlib

/-!
Verification of the SAUWA discount-code core: the discount state store
(nanostores), the validation client, and the error classifier.  Numbers
are modelled as exact rationals, timestamps as integers (milliseconds),
and string normalization over ASCII.
-/

namespace Sauwa

/-- JavaScript Math.round: round half toward positive infinity,
modelled on exact rationals. -/
def jsRound (q : ℚ) : ℤ := (q + 1/2).floor

/-- jsRound agrees with the mathematical floor of q + 1/2. -/
theorem jsRound_eq_intFloor (q : ℚ) : jsRound q = ⌊q + 1/2⌋ := by
  rw [jsRound, Rat.floor_def, Rat.floor_def']

/-- jsRound is the identity on integers. -/
theorem jsRound_intCast (n : ℤ) : jsRound (n : ℚ) = n := by
  rw [jsRound_eq_intFloor, Int.floor_int_add]
  norm_num

/-- Discount kind, field `type` of the Discount entity
(types/discount.ts, WDA-1023 shape). -/
inductive DiscountKind where
  | percentage
  | fixed
deriving DecidableEq, Repr

/-- Status field of the Discount entity. -/
inductive DiscountStatus where
  | active
  | inactive
  | expired
deriving DecidableEq, Repr

/-- The Discount entity (types/discount.ts, WDA-1023 shape).  The ISO
date string validUntil is modelled as an already-parsed timestamp;
null is none. -/
structure Discount where
  code : String
  type : DiscountKind
  amount : ℚ
  validUntil : Option ℤ
  maxUses : Option ℤ
  currentUses : ℤ
  status : DiscountStatus
deriving DecidableEq, Repr

/-- The DiscountCalculation record (types/discount.ts). -/
structure DiscountCalculation where
  originalPrice : ℚ
  discountAmount : ℚ
  finalPrice : ℚ
  percentage : ℚ
deriving DecidableEq, Repr

/-- getDiscountCalculation from the discount store (WDA-1023 version),
with the applied discount passed explicitly in place of the
appliedDiscount atom read. -/
def getDiscountCalculation (sessionPrice : ℚ) (discount : Option Discount) :
    DiscountCalculation :=
  match discount with
  | none =>
      { originalPrice := sessionPrice
        discountAmount := 0
        finalPrice := sessionPrice
        percentage := 0 }
  | some d =>
      let discountAmount : ℚ :=
        if d.type = DiscountKind.percentage then
          (jsRound (sessionPrice * d.amount / 100 * 100) : ℚ) / 100
        else
          min d.amount sessionPrice
      let percentage : ℚ :=
        if d.type = DiscountKind.percentage then d.amount
        else if 0 < sessionPrice then
          (jsRound (discountAmount / sessionPrice * 100) : ℚ)
        else 0
      let finalPrice : ℚ :=
        (jsRound ((sessionPrice - discountAmount) * 100) : ℚ) / 100
      { originalPrice := sessionPrice
        discountAmount := discountAmount
        finalPrice := finalPrice
        percentage := percentage }

/-- A concrete active 33 percent discount, used as test input. -/
def pct33 : Discount :=
  { code := "PCT33"
    type := DiscountKind.percentage
    amount := 33
    validUntil := none
    maxUses := none
    currentUses := 0
    status := DiscountStatus.active }

/-- Error taxonomy of the validation client
(graphql/queries/validateDiscountCode.ts). -/
inductive DiscountErrorType where
  | INVALID_CODE
  | INACTIVE
  | EXPIRED
  | NO_USES_LEFT
  | NETWORK_ERROR
  | UNKNOWN_ERROR
deriving DecidableEq, Repr

namespace DiscountHelpers

/-- Error taxonomy of types/discount-errors.ts, used by the UI helpers
and imported by the discount store. -/
inductive DiscountErrorType where
  | INVALID_CODE
  | EXPIRED
  | NO_USES_LEFT
  | ALREADY_USED
  | INACTIVE
  | NETWORK_ERROR
  | VALIDATION_ERROR
deriving DecidableEq, Repr

/-- isRecoverableError from discount-helpers.ts: true exactly on
INVALID_CODE and NETWORK_ERROR. -/
def isRecoverableError (errorType : DiscountErrorType) : Bool :=
  errorType == DiscountErrorType.INVALID_CODE ||
    errorType == DiscountErrorType.NETWORK_ERROR

end DiscountHelpers

/-- Store status field values (DiscountState in types/discount.ts). -/
inductive DiscountState where
  | idle
  | validating
  | valid
  | error
deriving DecidableEq, Repr

/-- The four discount store atoms gathered into one record:
discountCode, discountState, appliedDiscount and discountError. -/
structure StoreState where
  discountCode : String
  discountState : DiscountState
  appliedDiscount : Option Discount
  discountError : Option DiscountHelpers.DiscountErrorType
deriving DecidableEq, Repr

/-- Initial values of the four atoms: empty code, idle, no applied
discount, no error. -/
def initialStoreState : StoreState :=
  { discountCode := ""
    discountState := DiscountState.idle
    appliedDiscount := none
    discountError := none }

/-- Computed remainingUses (WDA-1023 version): null without a
discount, null when maxUses is null or 0 (unlimited), otherwise
maxUses - currentUses. -/
def remainingUses (discount : Option Discount) : Option ℤ :=
  match discount with
  | none => none
  | some d =>
    match d.maxUses with
    | none => none
    | some m => if m = 0 then none else some (m - d.currentUses)

/-- isDiscountExpired from the store (WDA-1023 version): the status
field is checked first, then the validUntil date is compared against
the current time.  The JavaScript comparison now > expirationDate is
the strict comparison t < now on parsed timestamps. -/
def isDiscountExpired (now : ℤ) (discount : Discount) : Bool :=
  if discount.status == DiscountStatus.expired ||
      discount.status == DiscountStatus.inactive then
    true
  else
    match discount.validUntil with
    | none => false
    | some t => decide (t < now)

/-- sanitizeCode: trim then uppercase (ASCII model of the JavaScript
trim and toUpperCase). -/
def sanitizeCode (code : String) : String :=
  code.trim.toUpper

/-- setDiscountCode action: store the sanitized code; clear the error
and reset the status to idle only when an error is currently set. -/
def setDiscountCode (code : String) (s : StoreState) : StoreState :=
  let sanitized := sanitizeCode code
  let s1 := { s with discountCode := sanitized }
  if s1.discountError ≠ none then
    { s1 with discountError := none, discountState := DiscountState.idle }
  else
    s1

/-- setValidating action. -/
def setValidating (s : StoreState) : StoreState :=
  { s with discountState := DiscountState.validating, discountError := none }

/-- setValid action. -/
def setValid (discount : Discount) (s : StoreState) : StoreState :=
  { s with appliedDiscount := some discount
           discountState := DiscountState.valid
           discountError := none
           discountCode := "" }

/-- setError action. -/
def setError (e : DiscountHelpers.DiscountErrorType) (s : StoreState) :
    StoreState :=
  { s with discountError := some e
           discountState := DiscountState.error
           appliedDiscount := none }

/-- clearDiscount action: every atom back to its initial value. -/
def clearDiscount (_s : StoreState) : StoreState :=
  { discountCode := ""
    discountState := DiscountState.idle
    appliedDiscount := none
    discountError := none }

/-- revalidateStoredDiscount action: clear everything when the stored
discount exists and is expired, otherwise leave the state alone. -/
def revalidateStoredDiscount (now : ℤ) (s : StoreState) : StoreState :=
  match s.appliedDiscount with
  | some stored =>
    if isDiscountExpired now stored then clearDiscount s else s
  | none => s

/-- Outcome of JSON.parse on the persisted string: a value of the
expected shape (a Discount or null), or a thrown parse error for
corrupt data. -/
inductive ParseOutcome where
  | ok (d : Option Discount)
  | err
deriving DecidableEq, Repr

/-- decode of the appliedDiscount persistentAtom: parse the stored
string, drop a parsed discount that is already expired, and map any
parse failure to null (the catch branch). -/
def decodeAppliedDiscount (now : ℤ) (r : ParseOutcome) : Option Discount :=
  match r with
  | ParseOutcome.err => none
  | ParseOutcome.ok d =>
    match d with
    | some discount =>
      if isDiscountExpired now discount then none else some discount
    | none => none

/-- One store action, to reason about action sequences. -/
inductive StoreAction where
  | setDiscountCode (raw : String)
  | setValidating
  | setValid (d : Discount)
  | setError (e : DiscountHelpers.DiscountErrorType)
  | clearDiscount
  | revalidateStoredDiscount (now : ℤ)

/-- Apply one store action. -/
def applyStoreAction (a : StoreAction) (s : StoreState) : StoreState :=
  match a with
  | StoreAction.setDiscountCode raw => setDiscountCode raw s
  | StoreAction.setValidating => setValidating s
  | StoreAction.setValid d => setValid d s
  | StoreAction.setError e => setError e s
  | StoreAction.clearDiscount => clearDiscount s
  | StoreAction.revalidateStoredDiscount now => revalidateStoredDiscount now s

/-- Run a sequence of store actions from a starting state. -/
def runStoreActions (acts : List StoreAction) (s : StoreState) : StoreState :=
  acts.foldl (fun st a => applyStoreAction a st) s

/-- Backend discountCode record of the sauwaValidateDiscountCode
response (WDA-1023 schema). -/
structure BackendDiscountCode where
  id : ℤ
  code : String
  name : String
  discountType : DiscountKind
  discountValue : ℚ
  maxUses : Option ℤ
  currentUses : ℤ
  validFrom : Option ℤ
  validUntil : Option ℤ
  status : DiscountStatus
deriving DecidableEq, Repr

/-- mapToErrorType from validateDiscountCode.ts (WDA-1023 version):
no record, then status inactive, then status expired, then the date
comparison, then the usage cap, else unknown.  The source also takes
an unused optional reason string, dropped here. -/
def mapToErrorType (now : ℤ) (discountCode : Option BackendDiscountCode) :
    DiscountErrorType :=
  match discountCode with
  | none => DiscountErrorType.INVALID_CODE
  | some c =>
    if c.status == DiscountStatus.inactive then
      DiscountErrorType.INACTIVE
    else if c.status == DiscountStatus.expired then
      DiscountErrorType.EXPIRED
    else if (match c.validUntil with
             | some t => decide (t < now)
             | none => false) then
      DiscountErrorType.EXPIRED
    else if (match c.maxUses with
             | some m => decide (0 < m) && decide (m ≤ c.currentUses)
             | none => false) then
      DiscountErrorType.NO_USES_LEFT
    else
      DiscountErrorType.UNKNOWN_ERROR

/-- The sauwaValidateDiscountCode payload inside a resolved GraphQL
response (WDA-1023 schema). -/
structure SauwaValidationPayload where
  valid : Bool
  reason : String
  calculatedDiscount : Option ℤ
  finalPriceCents : Option ℤ
  discountCode : Option BackendDiscountCode
deriving DecidableEq, Repr

/-- The ValidateDiscountResult record returned to callers; absent
optional fields are none. -/
structure ValidateDiscountResult where
  valid : Bool
  discount : Option Discount
  calculatedDiscount : Option ℤ
  finalPriceCents : Option ℤ
  message : Option String
  error : Option DiscountErrorType
deriving DecidableEq, Repr

/-- Conversion of the backend record into the Discount entity, written
inline in the success branch of validateDiscountCode. -/
def toDiscount (c : BackendDiscountCode) : Discount :=
  { code := c.code
    type := c.discountType
    amount := c.discountValue
    validUntil := c.validUntil
    maxUses := c.maxUses
    currentUses := c.currentUses
    status := c.status }

/-- How the awaited graphqlQuery promise can behave: resolve with a
payload, reject with a JavaScript Error (name and message), reject
with a non-Error value, or never settle. -/
inductive GraphqlOutcome where
  | resolved (data : SauwaValidationPayload)
  | rejectedError (name message : String)
  | rejectedOther
  | pending
deriving DecidableEq, Repr

/-- Delay of the abort timer in validateDiscountCode:
setTimeout of controller.abort at 5000 milliseconds. -/
def validationTimeoutMs : ℕ := 5000

/-- validateDiscountCode, as a function of the graphqlQuery outcome.
The result is some r when the returned promise resolves with r, and
none when it never resolves.  The source creates an AbortController
and arms a 5000 ms timer that calls controller.abort, but
graphqlQuery is invoked with only the query string and the variables
object: controller.signal is never passed to it, so firing the timer
cannot reject or cancel the query promise, and a query that never
settles leaves the await - and hence the whole call - pending
forever; the pending outcome therefore maps to none. -/
def validateDiscountCode (now : ℤ) (code : String) (subtotalCents : ℤ)
    (query : GraphqlOutcome) : Option ValidateDiscountResult :=
  match query with
  | GraphqlOutcome.pending => none
  | GraphqlOutcome.resolved data =>
    match data.valid, data.discountCode with
    | true, some c =>
      some { valid := true
             discount := some (toDiscount c)
             calculatedDiscount := data.calculatedDiscount
             finalPriceCents := data.finalPriceCents
             message := some data.reason
             error := none }
    | _, _ =>
      some { valid := false
             discount := none
             calculatedDiscount := none
             finalPriceCents := none
             message := some data.reason
             error := some (mapToErrorType now data.discountCode) }
  | GraphqlOutcome.rejectedError name message =>
    if name == "AbortError" then
      some { valid := false
             discount := none
             calculatedDiscount := none
             finalPriceCents := none
             message := some "Request timeout"
             error := some DiscountErrorType.NETWORK_ERROR }
    else
      some { valid := false
             discount := none
             calculatedDiscount := none
             finalPriceCents := none
             message := some message
             error := some DiscountErrorType.NETWORK_ERROR }
  | GraphqlOutcome.rejectedOther =>
    some { valid := false
           discount := none
           calculatedDiscount := none
           finalPriceCents := none
           message := some "Unknown error"
           error := some DiscountErrorType.NETWORK_ERROR }

/-- A concrete fixed 10 euro discount whose validUntil timestamp 100
is already past at time 200, used as test input. -/
def fixedPast : Discount :=
  { code := "OLD10"
    type := DiscountKind.fixed
    amount := 10
    validUntil := some 100
    maxUses := none
    currentUses := 0
    status := DiscountStatus.active }

/-- A store state holding fixedPast as the applied discount, used as
test input. -/
def storedFixedPast : StoreState :=
  { discountCode := ""
    discountState := DiscountState.valid
    appliedDiscount := some fixedPast
    discountError := none }

/-- A store state with a pending INVALID_CODE error, used as test
input. -/
def storeWithError : StoreState :=
  { discountCode := "BAD1"
    discountState := DiscountState.error
    appliedDiscount := none
    discountError := some DiscountHelpers.DiscountErrorType.INVALID_CODE }

/-- A discount whose usage cap field is 0, used as test input. -/
def capZero : Discount :=
  { code := "CAPZERO"
    type := DiscountKind.fixed
    amount := 5
    validUntil := none
    maxUses := some 0
    currentUses := 3
    status := DiscountStatus.active }

/-- A backend record that is both inactive and past its validity date
at time 0, used as test input. -/
def inactivePastRecord : BackendDiscountCode :=
  { id := 1
    code := "IN2023"
    name := "inactive and past"
    discountType := DiscountKind.percentage
    discountValue := 10
    maxUses := none
    currentUses := 0
    validFrom := none
    validUntil := some (-1)
    status := DiscountStatus.inactive }

/-- Sum of rounded hundredths: whenever a price and an amount are both
whole multiples of 1/100, the rounded final price plus the amount
recovers the price exactly. -/
theorem hundredths_round_sum (p dA : ℚ)
    (hp : ∃ n : ℤ, p * 100 = (n : ℚ)) (hdA : ∃ m : ℤ, dA * 100 = (m : ℚ)) :
    (jsRound ((p - dA) * 100) : ℚ) / 100 + dA = p := by
  obtain ⟨n, hn⟩ := hp
  obtain ⟨m, hm⟩ := hdA
  have h1 : (p - dA) * 100 = ((n - m : ℤ) : ℚ) := by
    push_cast
    rw [← hn, ← hm]
    ring
  have hp2 : p = (n : ℚ) / 100 := by
    rw [eq_div_iff (by norm_num : (100 : ℚ) ≠ 0)]
    exact hn
  have hdA2 : dA = (m : ℚ) / 100 := by
    rw [eq_div_iff (by norm_num : (100 : ℚ) ≠ 0)]
    exact hm
  rw [h1, jsRound_intCast, hp2, hdA2]
  push_cast
  ring

-- ===========================================================================
-- Theorems for the claims
-- ===========================================================================

/-- C1: validateDiscountCode arms its abort timer at 5000 ms, but the
abort signal is never wired to graphqlQuery, so a request that never
settles leaves the call pending instead of resolving with the
Request timeout result; the timeout result is only produced by the
dead catch branch for an AbortError rejection that the timer cannot
cause. -/
theorem C1_hung_request_stays_pending :
    validationTimeoutMs = 5000 ∧
    (∀ (now : ℤ) (code : String) (subtotalCents : ℤ),
      validateDiscountCode now code subtotalCents GraphqlOutcome.pending =
        none) ∧
    (∀ (now : ℤ) (code : String) (subtotalCents : ℤ) (msg : String),
      validateDiscountCode now code subtotalCents
          (GraphqlOutcome.rejectedError "AbortError" msg) =
        some { valid := false
               discount := none
               calculatedDiscount := none
               finalPriceCents := none
               message := some "Request timeout"
               error := some DiscountErrorType.NETWORK_ERROR }) := by
  refine ⟨rfl, fun _ _ _ => rfl, fun now code subtotalCents msg => ?_⟩
  simp [validateDiscountCode]

/-- C2 as stated is false: for a 33 percent discount on price 50 the
code yields 16.5 while round of price times amount over 100 is 17. -/
theorem C2_counterexample :
    (getDiscountCalculation 50 (some pct33)).discountAmount ≠
      ((jsRound (50 * 33 / 100) : ℤ) : ℚ) := by
  have hval : (getDiscountCalculation 50 (some pct33)).discountAmount = 33/2 := by
    simp only [getDiscountCalculation, pct33, jsRound_eq_intFloor]
    norm_num
  have hclaim : jsRound (50 * 33 / 100 : ℚ) = 17 := by
    rw [jsRound_eq_intFloor]
    norm_num
  rw [hval, hclaim]
  norm_num

/-- C2 amended: for a percentage discount the amount is price times
amount over 100 rounded to hundredths (round of price times amount,
divided by 100), not rounded to a whole unit; for a fixed discount it
is min of amount and price. -/
theorem C2_discountAmount_by_kind (p : ℚ) (d : Discount) :
    (d.type = DiscountKind.percentage →
      (getDiscountCalculation p (some d)).discountAmount =
        ((jsRound (p * d.amount) : ℤ) : ℚ) / 100) ∧
    (d.type = DiscountKind.fixed →
      (getDiscountCalculation p (some d)).discountAmount =
        min d.amount p) := by
  constructor
  · intro h
    simp only [getDiscountCalculation, h, if_pos]
    have harg : p * d.amount / 100 * 100 = p * d.amount := by
      field_simp
    rw [harg]
  · intro h
    simp [getDiscountCalculation, h]

/-- C2 witness at price 50 and the 33 percent discount. -/
theorem C2_discountAmount_by_kind_witness :
    (getDiscountCalculation 50 (some pct33)).discountAmount =
      ((jsRound (50 * pct33.amount) : ℤ) : ℚ) / 100 :=
  (C2_discountAmount_by_kind 50 pct33).1 rfl

/-- C3 as stated is false: the amounts are not integer cents; at price
50 with the 33 percent discount the discount amount is 16.5. -/
theorem C3_counterexample :
    ¬ ∃ n : ℤ, (getDiscountCalculation 50 (some pct33)).discountAmount =
      (n : ℚ) := by
  have hval : (getDiscountCalculation 50 (some pct33)).discountAmount = 33/2 := by
    simp only [getDiscountCalculation, pct33, jsRound_eq_intFloor]
    norm_num
  rw [hval]
  rintro ⟨n, hn⟩
  have h2 : (33 : ℚ) = 2 * (n : ℚ) := by linarith
  have h3 : (33 : ℤ) = 2 * n := by exact_mod_cast h2
  omega

/-- C3 amended: whenever the price is a whole multiple of 1/100 and,
for a fixed discount, the amount is too, the calculation satisfies
finalPrice plus discountAmount equals originalPrice exactly; the
intermediate amounts are multiples of 1/100, not whole units, and the
rounding is round half up. -/
theorem C3_finalPrice_plus_discount (p : ℚ) (discount : Option Discount)
    (hp : ∃ n : ℤ, p * 100 = (n : ℚ))
    (hfix : ∀ d, discount = some d → d.type = DiscountKind.fixed →
      ∃ a : ℤ, d.amount * 100 = (a : ℚ)) :
    (getDiscountCalculation p discount).finalPrice +
        (getDiscountCalculation p discount).discountAmount =
      (getDiscountCalculation p discount).originalPrice := by
  match discount with
  | none =>
    simp [getDiscountCalculation]
  | some d =>
    have hdA : ∃ m : ℤ, (getDiscountCalculation p (some d)).discountAmount *
        100 = (m : ℚ) := by
      cases htype : d.type with
      | percentage =>
        refine ⟨jsRound (p * d.amount / 100 * 100), ?_⟩
        simp only [getDiscountCalculation, htype, if_pos]
        field_simp
      | fixed =>
        obtain ⟨a, ha⟩ := hfix d rfl htype
        obtain ⟨n, hn⟩ := hp
        refine ⟨min a n, ?_⟩
        simp only [getDiscountCalculation, htype]
        rw [if_neg (by simp)]
        rw [min_mul_of_nonneg _ _ (by norm_num : (0:ℚ) ≤ 100), ha, hn]
        rcases le_total a n with hle | hle
        · rw [min_eq_left hle, min_eq_left (by exact_mod_cast hle)]
        · rw [min_eq_right hle, min_eq_right (by exact_mod_cast hle)]
    have hfp : (getDiscountCalculation p (some d)).finalPrice =
        (jsRound ((p - (getDiscountCalculation p (some d)).discountAmount) *
          100) : ℚ) / 100 := by
      simp only [getDiscountCalculation]
    have horig : (getDiscountCalculation p (some d)).originalPrice = p := by
      simp only [getDiscountCalculation]
    rw [hfp, horig]
    exact hundredths_round_sum p _ hp hdA

/-- C3 witness at price 50 and the 33 percent discount. -/
theorem C3_finalPrice_plus_discount_witness :
    (getDiscountCalculation 50 (some pct33)).finalPrice +
        (getDiscountCalculation 50 (some pct33)).discountAmount =
      (getDiscountCalculation 50 (some pct33)).originalPrice :=
  C3_finalPrice_plus_discount 50 (some pct33) ⟨5000, by norm_num⟩
    (fun d hd hfix => by
      rw [Option.some.injEq] at hd
      subst hd
      exact absurd hfix (by decide))

/-- C4: mapToErrorType decides in order: no record INVALID_CODE, then
status inactive INACTIVE, then status expired or a past validUntil
date EXPIRED, then a positive exhausted cap NO_USES_LEFT, otherwise
UNKNOWN_ERROR; in particular an inactive record classifies as
INACTIVE whatever its dates. -/
theorem C4_mapToErrorType_order (now : ℤ) (c : BackendDiscountCode) :
    mapToErrorType now none = DiscountErrorType.INVALID_CODE ∧
    (c.status = DiscountStatus.inactive →
      mapToErrorType now (some c) = DiscountErrorType.INACTIVE) ∧
    (c.status ≠ DiscountStatus.inactive →
      c.status = DiscountStatus.expired →
      mapToErrorType now (some c) = DiscountErrorType.EXPIRED) ∧
    (c.status ≠ DiscountStatus.inactive →
      c.status ≠ DiscountStatus.expired →
      (∃ t, c.validUntil = some t ∧ t < now) →
      mapToErrorType now (some c) = DiscountErrorType.EXPIRED) ∧
    (c.status ≠ DiscountStatus.inactive →
      c.status ≠ DiscountStatus.expired →
      (∀ t, c.validUntil = some t → ¬ t < now) →
      (∃ m, c.maxUses = some m ∧ 0 < m ∧ m ≤ c.currentUses) →
      mapToErrorType now (some c) = DiscountErrorType.NO_USES_LEFT) ∧
    (c.status ≠ DiscountStatus.inactive →
      c.status ≠ DiscountStatus.expired →
      (∀ t, c.validUntil = some t → ¬ t < now) →
      (∀ m, c.maxUses = some m → ¬ (0 < m ∧ m ≤ c.currentUses)) →
      mapToErrorType now (some c) = DiscountErrorType.UNKNOWN_ERROR) := by
  refine ⟨rfl, ?_, ?_, ?_, ?_, ?_⟩
  · intro h
    simp [mapToErrorType, h]
  · intro h1 h2
    simp [mapToErrorType, h1, h2]
  · rintro h1 h2 ⟨t, ht, htn⟩
    simp [mapToErrorType, h1, h2, ht, htn]
  · rintro h1 h2 hdate ⟨m, hm, hm0, hmu⟩
    have hdate2 : (match c.validUntil with
        | some t => decide (t < now)
        | none => false) = false := by
      cases hv : c.validUntil with
      | none => rfl
      | some t => simpa using hdate t hv
    simp [mapToErrorType, h1, h2, hdate2, hm, hm0, hmu]
  · intro h1 h2 hdate hcap
    have hdate2 : (match c.validUntil with
        | some t => decide (t < now)
        | none => false) = false := by
      cases hv : c.validUntil with
      | none => rfl
      | some t => simpa using hdate t hv
    have hcap2 : (match c.maxUses with
        | some m => decide (0 < m) && decide (m ≤ c.currentUses)
        | none => false) = false := by
      cases hm : c.maxUses with
      | none => rfl
      | some m =>
        have := hcap m hm
        simp only [Bool.and_eq_false_iff, decide_eq_false_iff_not]
        by_cases h0 : 0 < m
        · exact Or.inr (fun hle => this ⟨h0, hle⟩)
        · exact Or.inl h0
    simp [mapToErrorType, h1, h2, hdate2, hcap2]

/-- C4 witness: a record both inactive and past its date classifies as
INACTIVE. -/
theorem C4_mapToErrorType_order_witness :
    mapToErrorType 0 (some inactivePastRecord) =
      DiscountErrorType.INACTIVE :=
  (C4_mapToErrorType_order 0 inactivePastRecord).2.1 rfl

/-- C5: a stored discount is expired exactly when its status is
inactive or expired or its validUntil timestamp is past, and
revalidateStoredDiscount resets the whole store to its initial state
on exactly those discounts while leaving every other state alone. -/
theorem C5_expiry_and_revalidate (now : ℤ) (d : Discount) (s : StoreState) :
    (isDiscountExpired now d = true ↔
      (d.status = DiscountStatus.inactive ∨
        d.status = DiscountStatus.expired ∨
        ∃ t, d.validUntil = some t ∧ t < now)) ∧
    (s.appliedDiscount = some d → isDiscountExpired now d = true →
      revalidateStoredDiscount now s = initialStoreState) ∧
    (s.appliedDiscount = some d → isDiscountExpired now d = false →
      revalidateStoredDiscount now s = s) ∧
    (s.appliedDiscount = none → revalidateStoredDiscount now s = s) := by
  refine ⟨?_, ?_, ?_, ?_⟩
  · cases hst : d.status <;> cases hv : d.validUntil <;>
      simp [isDiscountExpired, hst, hv]
  · intro h hx
    simp [revalidateStoredDiscount, h, hx, clearDiscount, initialStoreState]
  · intro h hx
    simp [revalidateStoredDiscount, h, hx]
  · intro h
    simp [revalidateStoredDiscount, h]

/-- C5 witness: a stored discount past its validUntil date is
discarded by resetting the store. -/
theorem C5_expiry_and_revalidate_witness :
    revalidateStoredDiscount 200 storedFixedPast = initialStoreState :=
  (C5_expiry_and_revalidate 200 fixedPast storedFixedPast).2.1 rfl (by decide)

/-- C6: setDiscountCode stores the trimmed uppercased code; it clears
the error and resets the status to idle exactly when an error was
set, leaves error and status alone otherwise, and never touches the
applied discount. -/
theorem C6_setDiscountCode_behavior (raw : String) (s : StoreState) :
    (setDiscountCode raw s).discountCode = sanitizeCode raw ∧
    sanitizeCode raw = raw.trim.toUpper ∧
    (s.discountError ≠ none →
      (setDiscountCode raw s).discountError = none ∧
      (setDiscountCode raw s).discountState = DiscountState.idle) ∧
    (s.discountError = none →
      (setDiscountCode raw s).discountError = s.discountError ∧
      (setDiscountCode raw s).discountState = s.discountState) ∧
    (setDiscountCode raw s).appliedDiscount = s.appliedDiscount := by
  by_cases h : s.discountError = none <;>
    simp [setDiscountCode, sanitizeCode, h]

/-- C6 witness: editing the code on a state with a pending error
stores the sanitized code, clears the error and resets the status. -/
theorem C6_setDiscountCode_behavior_witness :
    (setDiscountCode " summer20 " storeWithError).discountError = none ∧
    (setDiscountCode " summer20 " storeWithError).discountState =
      DiscountState.idle :=
  (C6_setDiscountCode_behavior " summer20 " storeWithError).2.2.1 (by decide)

/-- C7: isRecoverableError is true exactly on INVALID_CODE and
NETWORK_ERROR among the seven categories of the taxonomy. -/
theorem C7_isRecoverableError_exact :
    ∀ e : DiscountHelpers.DiscountErrorType,
      DiscountHelpers.isRecoverableError e = true ↔
        (e = DiscountHelpers.DiscountErrorType.INVALID_CODE ∨
          e = DiscountHelpers.DiscountErrorType.NETWORK_ERROR) := by
  intro e
  cases e <;> decide

/-- C8: the persistence decode never throws: it is a total function
into Discount or null, a parse failure decodes to null, and any
decoded discount is non-expired. -/
theorem C8_decode_fails_soft (parse : String → ParseOutcome) (now : ℤ)
    (str : String) :
    (parse str = ParseOutcome.err →
      decodeAppliedDiscount now (parse str) = none) ∧
    (decodeAppliedDiscount now (parse str) = none ∨
      ∃ d, decodeAppliedDiscount now (parse str) = some d ∧
        isDiscountExpired now d = false) := by
  constructor
  · intro h
    rw [h]
    rfl
  · cases hp : parse str with
    | err => exact Or.inl rfl
    | ok d =>
      cases d with
      | none => exact Or.inl rfl
      | some discount =>
        by_cases hx : isDiscountExpired now discount = true
        · exact Or.inl (by simp [decodeAppliedDiscount, hx])
        · refine Or.inr ⟨discount, ?_, by simpa using hx⟩
          simp [decodeAppliedDiscount, hx]

/-- C8 witness: an unparsable stored string decodes to null. -/
theorem C8_decode_fails_soft_witness :
    decodeAppliedDiscount 0 ((fun _ => ParseOutcome.err) "not json") = none :=
  (C8_decode_fails_soft (fun _ => ParseOutcome.err) 0 "not json").1 rfl

/-- The store invariant of C9: status is error exactly when the error
field is set. -/
def errorStatusInv (s : StoreState) : Prop :=
  s.discountState = DiscountState.error ↔ s.discountError ≠ none

/-- Every store action preserves the error-status invariant. -/
theorem applyStoreAction_errorStatusInv (a : StoreAction) (s : StoreState)
    (h : errorStatusInv s) : errorStatusInv (applyStoreAction a s) := by
  unfold errorStatusInv at h ⊢
  cases a with
  | setDiscountCode raw =>
    by_cases hc : s.discountError = none
    · simpa [applyStoreAction, setDiscountCode, hc] using h
    · simp [applyStoreAction, setDiscountCode, hc]
  | setValidating =>
    simp [applyStoreAction, setValidating]
  | setValid d =>
    simp [applyStoreAction, setValid]
  | setError e =>
    simp [applyStoreAction, setError]
  | clearDiscount =>
    simp [applyStoreAction, clearDiscount]
  | revalidateStoredDiscount now =>
    cases hd : s.appliedDiscount with
    | none => simpa [applyStoreAction, revalidateStoredDiscount, hd] using h
    | some stored =>
      by_cases hx : isDiscountExpired now stored = true
      · simp [applyStoreAction, revalidateStoredDiscount, hd, hx,
          clearDiscount]
      · simpa [applyStoreAction, revalidateStoredDiscount, hd, hx] using h

/-- C9: after any finite sequence of store actions from the initial
state, the status field is error exactly when the error field is
non-null. -/
theorem C9_error_status_invariant (acts : List StoreAction) :
    (runStoreActions acts initialStoreState).discountState =
        DiscountState.error ↔
      (runStoreActions acts initialStoreState).discountError ≠ none := by
  have main : ∀ (l : List StoreAction) (s : StoreState), errorStatusInv s →
      errorStatusInv (runStoreActions l s) := by
    intro l
    induction l with
    | nil => exact fun s h => h
    | cons a l ih =>
      intro s h
      exact ih _ (applyStoreAction_errorStatusInv a s h)
  exact main acts initialStoreState (by simp [errorStatusInv, initialStoreState])

/-- C10: remainingUses is null when the cap is null and also when the
cap is 0, and equals cap minus current uses for every other cap. -/
theorem C10_remainingUses_zero_cap (d : Discount) :
    (d.maxUses = none → remainingUses (some d) = none) ∧
    (d.maxUses = some 0 → remainingUses (some d) = none) ∧
    (∀ m : ℤ, d.maxUses = some m → m ≠ 0 →
      remainingUses (some d) = some (m - d.currentUses)) := by
  refine ⟨?_, ?_, ?_⟩
  · intro h
    simp [remainingUses, h]
  · intro h
    simp [remainingUses, h]
  · intro m h hm
    simp [remainingUses, h, hm]

/-- C10 witness: a zero cap yields null, never an exhausted cap. -/
theorem C10_remainingUses_zero_cap_witness :
    remainingUses (some capZero) = none :=
  (C10_remainingUses_zero_cap capZero).2.1 rfl

end Sauwa
